import Mathlib

/-!
Verification of the AI Model Registry server (`ai-registry-server.js`).

The registry state is embedded shallowly: JS `Map`s become association
lists that keep insertion order (as JS `Map` iteration does), JS numbers
become rationals, optional or possibly-undefined fields become `Option`s,
and the clock and uuid generator become explicit arguments.  JS truthiness
tests (`if (x)`, `x || d`) are modelled by dedicated helper functions.
JSON documents are embedded by an inductive `Json` type; `JSON.stringify`
dropping of `undefined`-valued keys is modelled by omitting those keys.
`Array.prototype.sort` with a consistent comparator is required by the
ECMAScript standard to be a stable sort, so it is embedded as insertion
sort (which is stable in the same sense) over the comparator order.
-/

/-- A JSON value: the document domain used by the persistence layer and by
the communication descriptor payloads. -/
inductive Json where
  | null : Json
  | bool : Bool → Json
  | num : ℚ → Json
  | str : String → Json
  | arr : List Json → Json
  | obj : List (String × Json) → Json

/-- Key lookup on a JSON object; `none` on non-objects. -/
def jLookup (k : String) : Json → Option Json
  | .obj kvs => kvs.lookup k
  | _ => none

/-- Top-level keys of a JSON object document. -/
def topKeys : Json → List String
  | .obj kvs => kvs.map Prod.fst
  | _ => []

mutual

/-- All strings occurring in a JSON value: object keys and string leaves. -/
def stringsOf : Json → List String
  | .null => []
  | .bool _ => []
  | .num _ => []
  | .str s => [s]
  | .arr xs => stringsOfList xs
  | .obj kvs => stringsOfKVs kvs

/-- Strings occurring in a list of JSON values. -/
def stringsOfList : List Json → List String
  | [] => []
  | j :: js => stringsOf j ++ stringsOfList js

/-- Strings occurring in the entries of a JSON object. -/
def stringsOfKVs : List (String × Json) → List String
  | [] => []
  | kv :: kvs => kv.1 :: (stringsOf kv.2 ++ stringsOfKVs kvs)

end

/-- JS truthiness of an optional string: `undefined` and the empty string
are falsy. -/
def truthyS : Option String → Bool
  | none => false
  | some s => s ≠ ""

/-- JS truthiness of an optional number: `undefined` and `0` are falsy. -/
def truthyQ : Option ℚ → Bool
  | none => false
  | some q => q ≠ 0

/-- JS `x || d` for string fields: the default replaces `undefined` and
the empty string. -/
def orDefaultS (x : Option String) (d : String) : String :=
  match x with
  | none => d
  | some s => if s = "" then d else s

/-- JS `x || d` for numeric fields: the default replaces `undefined` and `0`. -/
def orDefaultQ (x : Option ℚ) (d : ℚ) : ℚ :=
  match x with
  | none => d
  | some q => if q = 0 then d else q

/-- JS `x || null` for numeric fields: `undefined` and `0` collapse to `null`. -/
def orNullQ (x : Option ℚ) : Option ℚ :=
  match x with
  | none => none
  | some q => if q = 0 then none else some q

/-- Numeric value a JS relational comparison gives a possibly-`null` field:
`null` coerces to `0`. -/
def numOrZero : Option ℚ → ℚ
  | none => 0
  | some q => q

/-- The `communicationSchema` sub-object of a model record.  All four keys
may be absent when a caller supplies a partial schema, hence `Option`s. -/
structure CommSchema where
  requestFormat : Option String
  responseFormat : Option String
  streamingSupported : Option Bool
  authMethod : Option String
deriving DecidableEq

/-- The schema defaulted by `registerModel` when none is supplied. -/
def defaultSchema : CommSchema :=
  { requestFormat := some "openai-compatible"
    responseFormat := some "openai-compatible"
    streamingSupported := some false
    authMethod := some "api-key" }

/-- A stored model record, mirroring the object literal built by
`registerModel` (lines 73 to 116 of the server).  Fields that
`registerModel` copies without a default may be `undefined`, hence
`Option`; fields it defaults are plain. -/
structure ModelEntry where
  id : String
  name : Option String
  type : Option String
  provider : Option String
  endpoint : Option String
  apiKey : Option String
  protocol : String
  capabilities : List String
  inputFormats : List String
  outputFormats : List String
  maxTokens : Option ℚ
  contextWindow : Option ℚ
  communicationSchema : CommSchema
  latencyMs : Option ℚ
  reliability : ℚ
  costPerToken : Option ℚ
  rateLimit : Option ℚ
  description : Option String
  tags : List String
  version : String
  registeredAt : String
  lastSeen : String
  lastUpdated : String
  status : String
  registeredBy : String
deriving DecidableEq

/-- The registration input `modelData`: every field may be absent. -/
structure ModelData where
  id : Option String := none
  name : Option String := none
  type : Option String := none
  provider : Option String := none
  endpoint : Option String := none
  apiKey : Option String := none
  protocol : Option String := none
  capabilities : Option (List String) := none
  inputFormats : Option (List String) := none
  outputFormats : Option (List String) := none
  maxTokens : Option ℚ := none
  contextWindow : Option ℚ := none
  communicationSchema : Option CommSchema := none
  latencyMs : Option ℚ := none
  reliability : Option ℚ := none
  costPerToken : Option ℚ := none
  rateLimit : Option ℚ := none
  description : Option String := none
  tags : Option (List String) := none
  version : Option String := none
  registeredBy : Option String := none
  status : Option String := none
deriving DecidableEq

/-- `registerModel` (lines 69 to 123): builds the stored entry from the
input.  The uuid that would be generated for a missing id and the clock
reading are passed explicitly.  Note that the input `status` field is
never read: the entry status is the literal `active`. -/
def registerModel (d : ModelData) (freshId now : String) : ModelEntry :=
  { id := orDefaultS d.id freshId
    name := d.name
    type := d.type
    provider := d.provider
    endpoint := d.endpoint
    apiKey := d.apiKey
    protocol := orDefaultS d.protocol "https"
    capabilities := d.capabilities.getD []
    inputFormats := d.inputFormats.getD ["text"]
    outputFormats := d.outputFormats.getD ["text"]
    maxTokens := d.maxTokens
    contextWindow := d.contextWindow
    communicationSchema := d.communicationSchema.getD defaultSchema
    latencyMs := orNullQ d.latencyMs
    reliability := orDefaultQ d.reliability 1
    costPerToken := orNullQ d.costPerToken
    rateLimit := orNullQ d.rateLimit
    description := d.description
    tags := d.tags.getD []
    version := orDefaultS d.version "1.0"
    registeredAt := now
    lastSeen := now
    lastUpdated := now
    status := "active"
    registeredBy := orDefaultS d.registeredBy "manual" }

/-- The model store: a JS `Map` keyed by model id, kept in insertion order. -/
abbrev Store := List (String × ModelEntry)

/-- JS `Map.set`: overwrite in place when the key exists, else append. -/
def mapSet {α : Type} (s : List (String × α)) (k : String) (v : α) :
    List (String × α) :=
  match s with
  | [] => [(k, v)]
  | (k', v') :: rest => if k' = k then (k, v) :: rest else (k', v') :: mapSet rest k v

/-- `this.models.set(modelId, modelEntry)` performed by `registerModel`. -/
def registerModelIn (s : Store) (d : ModelData) (freshId now : String) : Store :=
  mapSet s (orDefaultS d.id freshId) (registerModel d freshId now)

/-- The `criteria` argument of `findModels`: every key may be absent. -/
structure Criteria where
  type : Option String := none
  provider : Option String := none
  capability : Option String := none
  inputFormat : Option String := none
  outputFormat : Option String := none
  maxLatency : Option ℚ := none
  minReliability : Option ℚ := none
  tags : Option (List String) := none
deriving DecidableEq

/-- Line 169: `if (criteria.type && model.type !== criteria.type)`. -/
def passType (c : Criteria) (m : ModelEntry) : Bool :=
  !(truthyS c.type && decide (m.type ≠ c.type))

/-- Line 170: the provider equality criterion. -/
def passProvider (c : Criteria) (m : ModelEntry) : Bool :=
  !(truthyS c.provider && decide (m.provider ≠ c.provider))

/-- Line 171: the capability membership criterion. -/
def passCapability (c : Criteria) (m : ModelEntry) : Bool :=
  !(truthyS c.capability && !(m.capabilities.contains (c.capability.getD "")))

/-- Line 172: the input format membership criterion. -/
def passInputFormat (c : Criteria) (m : ModelEntry) : Bool :=
  !(truthyS c.inputFormat && !(m.inputFormats.contains (c.inputFormat.getD "")))

/-- Line 173: the output format membership criterion. -/
def passOutputFormat (c : Criteria) (m : ModelEntry) : Bool :=
  !(truthyS c.outputFormat && !(m.outputFormats.contains (c.outputFormat.getD "")))

/-- Line 174: `if (criteria.maxLatency && model.latencyMs > criteria.maxLatency)`.
A `null` latency coerces to `0` in the JS comparison. -/
def passMaxLatency (c : Criteria) (m : ModelEntry) : Bool :=
  !(truthyQ c.maxLatency && decide (numOrZero m.latencyMs > c.maxLatency.getD 0))

/-- Line 175: the minimum reliability criterion. -/
def passMinReliability (c : Criteria) (m : ModelEntry) : Bool :=
  !(truthyQ c.minReliability && decide (m.reliability < c.minReliability.getD 0))

/-- Line 176: the tags criterion; a supplied array is always truthy in JS. -/
def passTags (c : Criteria) (m : ModelEntry) : Bool :=
  !(c.tags.isSome && !((c.tags.getD []).all (fun t => m.tags.contains t)))

/-- The full conjunction tested by the `findModels` loop (lines 166 to 181). -/
def matchesCode (c : Criteria) (m : ModelEntry) : Bool :=
  passType c m && passProvider c m && passCapability c m && passInputFormat c m &&
  passOutputFormat c m && passMaxLatency c m && passMinReliability c m && passTags c m

/-- The latency sort key `(x.latencyMs || 999999)` of line 188: `null` and
`0` both fall back to the sentinel. -/
def latKey (m : ModelEntry) : ℚ :=
  match m.latencyMs with
  | none => 999999
  | some l => if l = 0 then 999999 else l

/-- `modelLe a b` holds when the comparator of lines 184 to 189 returns a
nonpositive number on `(a, b)`, i.e. when a stable sort may keep `a`
before `b`. -/
def modelLe (a b : ModelEntry) : Bool :=
  if a.reliability = b.reliability then decide (latKey a ≤ latKey b)
  else decide (b.reliability < a.reliability)

/-- `findModels` (lines 163 to 190): linear scan filter over the store in
insertion order, then a stable sort by the comparator. -/
def findModels (s : Store) (c : Criteria) : List ModelEntry :=
  List.insertionSort (fun a b => modelLe a b = true)
    ((s.map Prod.snd).filter (matchesCode c))

/-- Modelled from the wording of section 4.2 of the spec: a record
satisfies a supplied criterion when the stated predicate holds — equality
for `type` and `provider`, membership for `capability` and the formats, a
latency upper bound that unset latency always passes, a reliability lower
bound, and containment of all requested tags.  Used only to compare the
spec predicate with the code filter. -/
def specMatches (c : Criteria) (m : ModelEntry) : Bool :=
  (match c.type with | none => true | some s => m.type == some s) &&
  (match c.provider with | none => true | some s => m.provider == some s) &&
  (match c.capability with | none => true | some s => m.capabilities.contains s) &&
  (match c.inputFormat with | none => true | some s => m.inputFormats.contains s) &&
  (match c.outputFormat with | none => true | some s => m.outputFormats.contains s) &&
  (match c.maxLatency with
   | none => true
   | some q => match m.latencyMs with | none => true | some l => decide (l ≤ q)) &&
  (match c.minReliability with | none => true | some q => decide (q ≤ m.reliability)) &&
  (match c.tags with | none => true | some ts => ts.all (fun t => m.tags.contains t))

/-- A criteria mapping is effective when every supplied value survives the
JS truthiness tests in the code and, for `maxLatency`, is positive, so
that the `null`-coercion of unset latency cannot flip the comparison. -/
def effectiveCriteria (c : Criteria) : Bool :=
  c.type.all (fun s => !(s == "")) &&
  c.provider.all (fun s => !(s == "")) &&
  c.capability.all (fun s => !(s == "")) &&
  c.inputFormat.all (fun s => !(s == "")) &&
  c.outputFormat.all (fun s => !(s == "")) &&
  c.maxLatency.all (fun q => decide (0 < q)) &&
  c.minReliability.all (fun q => !(q == 0))

/-- A JSON object entry for a possibly-undefined value: `JSON.stringify`
and the HTTP JSON serializer drop keys holding `undefined`. -/
def optEntry (k : String) (v : Option Json) : List (String × Json) :=
  match v with
  | none => []
  | some j => [(k, j)]

/-- A JS template literal coerces `undefined` to the text `undefined`. -/
def epStr (m : ModelEntry) : String :=
  match m.endpoint with
  | none => "undefined"
  | some s => s

/-- The openai-compatible example request template (lines 212 to 227). -/
def exampleReqOpenai (m : ModelEntry) : Json :=
  .obj [("method", .str "POST"),
        ("endpoint", .str (epStr m ++ "/v1/chat/completions")),
        ("headers", .obj [("Content-Type", .str "application/json"),
                          ("Authorization", .str "Bearer YOUR_API_KEY")]),
        ("body", .obj (optEntry "model" (m.name.map .str) ++
          [("messages", .arr [.obj [("role", .str "user"),
                                    ("content", .str "Hello, how can you help me?")]]),
           ("max_tokens", .num 150),
           ("temperature", .num (7 / 10))]))]

/-- The anthropic example request template (lines 228 to 243). -/
def exampleReqAnthropic (m : ModelEntry) : Json :=
  .obj [("method", .str "POST"),
        ("endpoint", .str (epStr m ++ "/v1/messages")),
        ("headers", .obj [("Content-Type", .str "application/json"),
                          ("x-api-key", .str "YOUR_API_KEY"),
                          ("anthropic-version", .str "2023-06-01")]),
        ("body", .obj (optEntry "model" (m.name.map .str) ++
          [("max_tokens", .num 150),
           ("messages", .arr [.obj [("role", .str "user"),
                                    ("content", .str "Hello, how can you help me?")]])]))]

/-- The ollama example request template (lines 244 to 255). -/
def exampleReqOllama (m : ModelEntry) : Json :=
  .obj [("method", .str "POST"),
        ("endpoint", .str (epStr m ++ "/api/generate")),
        ("headers", .obj [("Content-Type", .str "application/json")]),
        ("body", .obj (optEntry "model" (m.name.map .str) ++
          [("prompt", .str "Hello, how can you help me?"),
           ("stream", .bool false)]))]

/-- `generateExampleRequest` (lines 210 to 259): template lookup keyed by
`communicationSchema.requestFormat`, defaulting to openai-compatible for
any unrecognized or absent key. -/
def generateExampleRequest (m : ModelEntry) : Json :=
  if m.communicationSchema.requestFormat == some "anthropic" then exampleReqAnthropic m
  else if m.communicationSchema.requestFormat == some "ollama" then exampleReqOllama m
  else exampleReqOpenai m

/-- The openai-compatible example response template (lines 263 to 278).
The `created` epoch value read from the clock is the argument `nowEpoch`. -/
def exampleRespOpenai (m : ModelEntry) (nowEpoch : ℚ) : Json :=
  .obj ([("id", .str "chatcmpl-123"),
         ("object", .str "chat.completion"),
         ("created", .num nowEpoch)] ++
        optEntry "model" (m.name.map .str) ++
        [("choices", .arr [.obj [("index", .num 0),
                                 ("message", .obj [("role", .str "assistant"),
                                   ("content", .str "Hello! I can help you with various tasks...")]),
                                 ("finish_reason", .str "stop")]])])

/-- The anthropic example response template (lines 279 to 291). -/
def exampleRespAnthropic (m : ModelEntry) : Json :=
  .obj ([("id", .str "msg_123"),
         ("type", .str "message"),
         ("role", .str "assistant"),
         ("content", .arr [.obj [("type", .str "text"),
           ("text", .str "Hello! I can help you with various tasks...")]])] ++
        optEntry "model" (m.name.map .str) ++
        [("stop_reason", .str "end_turn")])

/-- The ollama example response template (lines 292 to 297).  The ISO
timestamp read from the clock is the argument `nowIso`. -/
def exampleRespOllama (m : ModelEntry) (nowIso : String) : Json :=
  .obj (optEntry "model" (m.name.map .str) ++
        [("created_at", .str nowIso),
         ("response", .str "Hello! I can help you with various tasks..."),
         ("done", .bool true)])

/-- `generateExampleResponse` (lines 261 to 301), keyed by
`communicationSchema.responseFormat` with the openai-compatible fallback. -/
def generateExampleResponse (m : ModelEntry) (nowEpoch : ℚ) (nowIso : String) : Json :=
  if m.communicationSchema.responseFormat == some "anthropic" then exampleRespAnthropic m
  else if m.communicationSchema.responseFormat == some "ollama" then exampleRespOllama m nowIso
  else exampleRespOpenai m nowEpoch

/-- The entries of a serialized `communicationSchema` sub-object. -/
def encodeSchemaKVs (cs : CommSchema) : List (String × Json) :=
  optEntry "requestFormat" (cs.requestFormat.map .str) ++
  optEntry "responseFormat" (cs.responseFormat.map .str) ++
  optEntry "streamingSupported" (cs.streamingSupported.map .bool) ++
  optEntry "authMethod" (cs.authMethod.map .str)

/-- The `communicationSchema` sub-object as serialized in a payload. -/
def encodeSchema (cs : CommSchema) : Json :=
  .obj (encodeSchemaKVs cs)

/-- `getModelCommunication` (lines 193 to 208): the serialized descriptor
payload for a model id, or `none` when the id is unknown.  The `apiKey`
field is the mask string `***hidden***` when the record has a truthy key
and `null` otherwise; the raw key is not used anywhere else. -/
def getModelCommunication (s : Store) (modelId : String) (nowEpoch : ℚ)
    (nowIso : String) : Option Json :=
  (s.lookup modelId).map fun m =>
    .obj ([("id", .str m.id)] ++
          optEntry "name" (m.name.map .str) ++
          optEntry "endpoint" (m.endpoint.map .str) ++
          [("protocol", .str m.protocol),
           ("communicationSchema", encodeSchema m.communicationSchema)] ++
          optEntry "authMethod" (m.communicationSchema.authMethod.map .str) ++
          [("apiKey", if truthyS m.apiKey then .str "***hidden***" else .null),
           ("exampleRequest", generateExampleRequest m),
           ("exampleResponse", generateExampleResponse m nowEpoch nowIso)])

/-- The string literals hard-coded into descriptor payloads: keys and
fixed values of the descriptor and of all six templates. -/
def descriptorLiterals : List String :=
  ["id", "name", "endpoint", "protocol", "communicationSchema", "requestFormat",
   "responseFormat", "streamingSupported", "authMethod", "apiKey", "exampleRequest",
   "exampleResponse", "***hidden***", "method", "POST", "headers", "Content-Type",
   "application/json", "Authorization", "Bearer YOUR_API_KEY", "x-api-key",
   "YOUR_API_KEY", "anthropic-version", "2023-06-01", "body", "model", "messages",
   "role", "user", "content", "Hello, how can you help me?", "max_tokens",
   "temperature", "prompt", "stream", "chatcmpl-123", "object", "chat.completion",
   "created", "choices", "index", "message", "assistant",
   "Hello! I can help you with various tasks...", "finish_reason", "stop",
   "msg_123", "type", "text", "stop_reason", "end_turn", "created_at",
   "response", "done"]

/-- Every string a descriptor payload for the record `m` may contain:
fixed literals, the clock reading, and data derived from the fields of
`m` other than `apiKey`. -/
def allowedStrings (m : ModelEntry) (nowIso : String) : List String :=
  descriptorLiterals ++
  [m.id, m.protocol, nowIso, epStr m,
   epStr m ++ "/v1/chat/completions", epStr m ++ "/v1/messages",
   epStr m ++ "/api/generate"] ++
  m.name.toList ++ m.endpoint.toList ++
  m.communicationSchema.requestFormat.toList ++
  m.communicationSchema.responseFormat.toList ++
  m.communicationSchema.authMethod.toList

/-- `updateModelStatus` (lines 304 to 311), the heartbeat: when the id is
present, the record gets the new status and a fresh `lastSeen`; nothing
else changes — in particular `lastUpdated` is untouched. -/
def updateModelStatus (s : Store) (modelId status now : String) : Store :=
  match s.lookup modelId with
  | none => s
  | some _ =>
      s.map fun kv =>
        if kv.1 = modelId then (kv.1, { kv.2 with lastSeen := now, status := status })
        else kv

/-- The request body of `PUT /api/models/:id`: a partial record.  An outer
`none` means the key is absent from the body; for fields whose stored
representation is itself optional, `some none` means the body holds `null`. -/
structure ModelPatch where
  id : Option String := none
  name : Option (Option String) := none
  type : Option (Option String) := none
  provider : Option (Option String) := none
  endpoint : Option (Option String) := none
  apiKey : Option (Option String) := none
  protocol : Option String := none
  capabilities : Option (List String) := none
  inputFormats : Option (List String) := none
  outputFormats : Option (List String) := none
  maxTokens : Option (Option ℚ) := none
  contextWindow : Option (Option ℚ) := none
  communicationSchema : Option CommSchema := none
  latencyMs : Option (Option ℚ) := none
  reliability : Option ℚ := none
  costPerToken : Option (Option ℚ) := none
  rateLimit : Option (Option ℚ) := none
  description : Option (Option String) := none
  tags : Option (List String) := none
  version : Option String := none
  registeredAt : Option String := none
  lastSeen : Option String := none
  lastUpdated : Option String := none
  status : Option String := none
  registeredBy : Option String := none
deriving DecidableEq

/-- The spread `{...existingModel, ...req.body, lastUpdated: now}` of line
448: body keys override the record, then `lastUpdated` is set from the
clock regardless of the body. -/
def applyPatch (m : ModelEntry) (p : ModelPatch) (now : String) : ModelEntry :=
  { id := p.id.getD m.id
    name := p.name.getD m.name
    type := p.type.getD m.type
    provider := p.provider.getD m.provider
    endpoint := p.endpoint.getD m.endpoint
    apiKey := p.apiKey.getD m.apiKey
    protocol := p.protocol.getD m.protocol
    capabilities := p.capabilities.getD m.capabilities
    inputFormats := p.inputFormats.getD m.inputFormats
    outputFormats := p.outputFormats.getD m.outputFormats
    maxTokens := p.maxTokens.getD m.maxTokens
    contextWindow := p.contextWindow.getD m.contextWindow
    communicationSchema := p.communicationSchema.getD m.communicationSchema
    latencyMs := p.latencyMs.getD m.latencyMs
    reliability := p.reliability.getD m.reliability
    costPerToken := p.costPerToken.getD m.costPerToken
    rateLimit := p.rateLimit.getD m.rateLimit
    description := p.description.getD m.description
    tags := p.tags.getD m.tags
    version := p.version.getD m.version
    registeredAt := p.registeredAt.getD m.registeredAt
    lastSeen := p.lastSeen.getD m.lastSeen
    lastUpdated := now
    status := p.status.getD m.status
    registeredBy := p.registeredBy.getD m.registeredBy }

/-- The `PUT /api/models/:id` route (lines 440 to 453): `none` is the 404
branch; otherwise the patched record replaces the old one in place. -/
def updateModel (s : Store) (modelId : String) (p : ModelPatch) (now : String) :
    Option Store :=
  match s.lookup modelId with
  | none => none
  | some m => some (mapSet s modelId (applyPatch m p now))

/-- `removeModel` (lines 314 to 323): delete by id, reporting whether the
id existed; the store is untouched when it did not. -/
def removeModel (s : Store) (modelId : String) : Bool × Store :=
  match s.lookup modelId with
  | some _ => (true, s.eraseP (fun kv => kv.1 == modelId))
  | none => (false, s)

/-- Increment the counter for a key in a JS object used as a counter map:
`(obj[k] || 0) + 1`. -/
def bump (l : List (String × Nat)) (k : String) : List (String × Nat) :=
  match l with
  | [] => [(k, 1)]
  | (k', n) :: rest => if k' = k then (k', n + 1) :: rest else (k', n) :: bump rest k

/-- An agent record as built by `registerAgent` (lines 126 to 160). -/
structure AgentEntry where
  id : String
  name : Option String
  type : String
  endpoint : Option String
  dashboardPort : Option ℚ
  capabilities : List String
  availableModels : List String
  preferredModels : List String
  networkId : Option String
  nodeUrl : Option String
  status : String
  lastHeartbeat : String
  registeredAt : String
  registeredBy : String
deriving DecidableEq

/-- The full registry state: the three JS `Map`s.  Network records are
never created by any code path, so their values stay raw JSON. -/
structure Registry where
  models : List (String × ModelEntry)
  agents : List (String × AgentEntry)
  networks : List (String × Json)

/-- A fresh registry, as constructed before `loadData` runs. -/
def emptyRegistry : Registry :=
  { models := [], agents := [], networks := [] }

/-- The statistics object of `getStats` (lines 336 to 359). -/
structure Stats where
  totalModels : Nat
  activeModels : Nat
  totalAgents : Nat
  modelsByType : List (String × Nat)
  modelsByProvider : List (String × Nat)
deriving DecidableEq

/-- One iteration of the `getStats` loop over a model record. -/
def statsStep (acc : Stats) (m : ModelEntry) : Stats :=
  { totalModels := acc.totalModels + 1
    activeModels := acc.activeModels + (if m.status = "active" then 1 else 0)
    totalAgents := acc.totalAgents
    modelsByType := bump acc.modelsByType (m.type.getD "undefined")
    modelsByProvider := bump acc.modelsByProvider (m.provider.getD "undefined") }

/-- `getStats`: one pass over the model values in store order.  A record
whose `type` or `provider` is `undefined` is counted under the JS object
key `undefined`. -/
def getStats (r : Registry) : Stats :=
  (r.models.map Prod.snd).foldl statsStep
    { totalModels := 0, activeModels := 0, totalAgents := r.agents.length,
      modelsByType := [], modelsByProvider := [] }

/-- Serialize a numeric field whose unset representation is `null`. -/
def jsonOfOptNum : Option ℚ → Json
  | none => .null
  | some q => .num q

/-- The serialized form of a stored model record, in the key order of the
`registerModel` object literal; `undefined`-valued keys are dropped as
`JSON.stringify` does. -/
def encodeModelKVs (m : ModelEntry) : List (String × Json) :=
  [("id", .str m.id)] ++
        optEntry "name" (m.name.map .str) ++
        optEntry "type" (m.type.map .str) ++
        optEntry "provider" (m.provider.map .str) ++
        optEntry "endpoint" (m.endpoint.map .str) ++
        optEntry "apiKey" (m.apiKey.map .str) ++
        [("protocol", .str m.protocol),
         ("capabilities", .arr (m.capabilities.map .str)),
         ("inputFormats", .arr (m.inputFormats.map .str)),
         ("outputFormats", .arr (m.outputFormats.map .str))] ++
        optEntry "maxTokens" (m.maxTokens.map .num) ++
        optEntry "contextWindow" (m.contextWindow.map .num) ++
        [("communicationSchema", encodeSchema m.communicationSchema),
         ("latencyMs", jsonOfOptNum m.latencyMs),
         ("reliability", .num m.reliability),
         ("costPerToken", jsonOfOptNum m.costPerToken),
         ("rateLimit", jsonOfOptNum m.rateLimit)] ++
        optEntry "description" (m.description.map .str) ++
        [("tags", .arr (m.tags.map .str)),
         ("version", .str m.version),
         ("registeredAt", .str m.registeredAt),
         ("lastSeen", .str m.lastSeen),
         ("lastUpdated", .str m.lastUpdated),
         ("status", .str m.status),
         ("registeredBy", .str m.registeredBy)]

/-- The serialized form of a stored model record. -/
def encodeModel (m : ModelEntry) : Json :=
  .obj (encodeModelKVs m)

/-- The entries of a serialized agent record, in `registerAgent` key order. -/
def encodeAgentKVs (a : AgentEntry) : List (String × Json) :=
  [("id", .str a.id)] ++
        optEntry "name" (a.name.map .str) ++
        [("type", .str a.type)] ++
        optEntry "endpoint" (a.endpoint.map .str) ++
        optEntry "dashboardPort" (a.dashboardPort.map .num) ++
        [("capabilities", .arr (a.capabilities.map .str)),
         ("availableModels", .arr (a.availableModels.map .str)),
         ("preferredModels", .arr (a.preferredModels.map .str))] ++
        optEntry "networkId" (a.networkId.map .str) ++
        optEntry "nodeUrl" (a.nodeUrl.map .str) ++
        [("status", .str a.status),
         ("lastHeartbeat", .str a.lastHeartbeat),
         ("registeredAt", .str a.registeredAt),
         ("registeredBy", .str a.registeredBy)]

/-- The serialized form of an agent record. -/
def encodeAgent (a : AgentEntry) : Json :=
  .obj (encodeAgentKVs a)

/-- Reading a string field from a parsed JSON object. -/
def asStr : Option Json → Option String
  | some (.str s) => some s
  | _ => none

/-- Reading a numeric field from a parsed JSON object: `null` and absent
keys both read back as unset. -/
def asNum : Option Json → Option ℚ
  | some (.num q) => some q
  | _ => none

/-- Reading a boolean field from a parsed JSON object. -/
def asBool : Option Json → Option Bool
  | some (.bool b) => some b
  | _ => none

/-- Reading a string array field from a parsed JSON object. -/
def asStrList : Option Json → List String
  | some (.arr xs) =>
      xs.foldr (fun j acc => match j with | .str s => s :: acc | _ => acc) []
  | _ => []

/-- Reading a `communicationSchema` sub-object back from JSON. -/
def decodeSchema (j : Option Json) : CommSchema :=
  match j with
  | some (.obj kvs) =>
      { requestFormat := asStr (kvs.lookup "requestFormat")
        responseFormat := asStr (kvs.lookup "responseFormat")
        streamingSupported := asBool (kvs.lookup "streamingSupported")
        authMethod := asStr (kvs.lookup "authMethod") }
  | _ => { requestFormat := none, responseFormat := none,
           streamingSupported := none, authMethod := none }

/-- Field-by-field access to a parsed model record, as the server performs
on records restored by `loadData`. -/
def decodeModel (j : Json) : ModelEntry :=
  match j with
  | .obj kvs =>
      { id := (asStr (kvs.lookup "id")).getD ""
        name := asStr (kvs.lookup "name")
        type := asStr (kvs.lookup "type")
        provider := asStr (kvs.lookup "provider")
        endpoint := asStr (kvs.lookup "endpoint")
        apiKey := asStr (kvs.lookup "apiKey")
        protocol := (asStr (kvs.lookup "protocol")).getD ""
        capabilities := asStrList (kvs.lookup "capabilities")
        inputFormats := asStrList (kvs.lookup "inputFormats")
        outputFormats := asStrList (kvs.lookup "outputFormats")
        maxTokens := asNum (kvs.lookup "maxTokens")
        contextWindow := asNum (kvs.lookup "contextWindow")
        communicationSchema := decodeSchema (kvs.lookup "communicationSchema")
        latencyMs := asNum (kvs.lookup "latencyMs")
        reliability := (asNum (kvs.lookup "reliability")).getD 0
        costPerToken := asNum (kvs.lookup "costPerToken")
        rateLimit := asNum (kvs.lookup "rateLimit")
        description := asStr (kvs.lookup "description")
        tags := asStrList (kvs.lookup "tags")
        version := (asStr (kvs.lookup "version")).getD ""
        registeredAt := (asStr (kvs.lookup "registeredAt")).getD ""
        lastSeen := (asStr (kvs.lookup "lastSeen")).getD ""
        lastUpdated := (asStr (kvs.lookup "lastUpdated")).getD ""
        status := (asStr (kvs.lookup "status")).getD ""
        registeredBy := (asStr (kvs.lookup "registeredBy")).getD "" }
  | _ =>
      { id := "", name := none, type := none, provider := none, endpoint := none,
        apiKey := none, protocol := "", capabilities := [], inputFormats := [],
        outputFormats := [], maxTokens := none, contextWindow := none,
        communicationSchema := { requestFormat := none, responseFormat := none,
                                 streamingSupported := none, authMethod := none },
        latencyMs := none, reliability := 0, costPerToken := none, rateLimit := none,
        description := none, tags := [], version := "", registeredAt := "",
        lastSeen := "", lastUpdated := "", status := "", registeredBy := "" }

/-- Field-by-field access to a parsed agent record. -/
def decodeAgent (j : Json) : AgentEntry :=
  match j with
  | .obj kvs =>
      { id := (asStr (kvs.lookup "id")).getD ""
        name := asStr (kvs.lookup "name")
        type := (asStr (kvs.lookup "type")).getD ""
        endpoint := asStr (kvs.lookup "endpoint")
        dashboardPort := asNum (kvs.lookup "dashboardPort")
        capabilities := asStrList (kvs.lookup "capabilities")
        availableModels := asStrList (kvs.lookup "availableModels")
        preferredModels := asStrList (kvs.lookup "preferredModels")
        networkId := asStr (kvs.lookup "networkId")
        nodeUrl := asStr (kvs.lookup "nodeUrl")
        status := (asStr (kvs.lookup "status")).getD ""
        lastHeartbeat := (asStr (kvs.lookup "lastHeartbeat")).getD ""
        registeredAt := (asStr (kvs.lookup "registeredAt")).getD ""
        registeredBy := (asStr (kvs.lookup "registeredBy")).getD "" }
  | _ =>
      { id := "", name := none, type := "", endpoint := none, dashboardPort := none,
        capabilities := [], availableModels := [], preferredModels := [],
        networkId := none, nodeUrl := none, status := "", lastHeartbeat := "",
        registeredAt := "", registeredBy := "" }

/-- `saveData` (lines 53 to 66): the single JSON document written to disk,
with the clock reading as `lastUpdated`. -/
def saveData (r : Registry) (now : String) : Json :=
  .obj [("models", .obj (r.models.map fun kv => (kv.1, encodeModel kv.2))),
        ("agents", .obj (r.agents.map fun kv => (kv.1, encodeAgent kv.2))),
        ("networks", .obj r.networks),
        ("lastUpdated", .str now)]

/-- `loadData` (lines 32 to 51) applied to a parsed document: each present
top-level map replaces the corresponding empty map of a fresh registry
(`Object.entries` keeps key order). -/
def loadData (j : Json) : Registry :=
  match j with
  | .obj kvs =>
      { models :=
          match kvs.lookup "models" with
          | some (.obj ms) => ms.map fun kv => (kv.1, decodeModel kv.2)
          | _ => []
        agents :=
          match kvs.lookup "agents" with
          | some (.obj as) => as.map fun kv => (kv.1, decodeAgent kv.2)
          | _ => []
        networks :=
          match kvs.lookup "networks" with
          | some (.obj ns) => ns
          | _ => [] }
  | _ => emptyRegistry

/-- Lookup skips an optional entry with a different key. -/
theorem lookup_optEntry_ne (k' k : String) (v : Option Json)
    (rest : List (String × Json)) (h : (k' == k) = false) :
    (optEntry k v ++ rest).lookup k' = rest.lookup k' := by
  cases v <;> simp [optEntry, List.lookup, h]

/-- Lookup resolves an optional entry with its own key when no later entry
shares that key. -/
theorem lookup_optEntry_self (k : String) (v : Option Json)
    (rest : List (String × Json)) (h : rest.lookup k = none) :
    (optEntry k v ++ rest).lookup k = v := by
  cases v <;> simp [optEntry, List.lookup, h]

/-- Reading back a serialized optional string field. -/
theorem asStr_map_str (o : Option String) : asStr (o.map Json.str) = o := by
  cases o <;> rfl

/-- Reading back a plain string field. -/
theorem asStr_some_str (s : String) : asStr (some (Json.str s)) = some s := rfl

/-- Reading back a plain numeric field. -/
theorem asNum_some_num (q : ℚ) : asNum (some (Json.num q)) = some q := rfl

/-- Reading back a serialized optional numeric field. -/
theorem asNum_map_num (o : Option ℚ) : asNum (o.map Json.num) = o := by
  cases o <;> rfl

/-- Reading back a serialized optional boolean field. -/
theorem asBool_map_bool (o : Option Bool) : asBool (o.map Json.bool) = o := by
  cases o <;> rfl

/-- Reading back a numeric field serialized with `null` for unset. -/
theorem asNum_jsonOfOptNum (o : Option ℚ) : asNum (some (jsonOfOptNum o)) = o := by
  cases o <;> rfl

/-- Reading back a serialized string array field. -/
theorem asStrList_map_str (l : List String) :
    asStrList (some (.arr (l.map Json.str))) = l := by
  induction l with
  | nil => rfl
  | cons x xs ih =>
      simp [asStrList, List.foldr] at ih ⊢
      exact ih

/-- A serialized communication schema reads back unchanged. -/
theorem decodeSchema_encodeSchema (cs : CommSchema) :
    decodeSchema (some (encodeSchema cs)) = cs := by
  rcases cs with ⟨rf, sf, ss, am⟩
  cases rf <;> cases sf <;> cases ss <;> cases am <;> rfl

/-- A serialized model record reads back unchanged: every field survives
the save format, including dropped `undefined` keys and `null` markers. -/
theorem decodeModel_encodeModel (m : ModelEntry) :
    decodeModel (encodeModel m) = m := by
  simp [decodeModel, encodeModel, encodeModelKVs, List.lookup, List.append_assoc,
    lookup_optEntry_ne, lookup_optEntry_self, asStr_map_str, asNum_map_num,
    asNum_jsonOfOptNum, asStrList_map_str, decodeSchema_encodeSchema,
    asStr_some_str, asNum_some_num]

/-- A serialized agent record reads back unchanged. -/
theorem decodeAgent_encodeAgent (a : AgentEntry) :
    decodeAgent (encodeAgent a) = a := by
  simp [decodeAgent, encodeAgent, encodeAgentKVs, List.lookup, List.append_assoc,
    lookup_optEntry_ne, lookup_optEntry_self, asStr_map_str, asNum_map_num,
    asStrList_map_str, asStr_some_str, asNum_some_num]

/-- Re-serializing every model entry of a store reproduces the store. -/
theorem map_decode_encode_model (ms : List (String × ModelEntry)) :
    ms.map (fun kv => (kv.1, decodeModel (encodeModel kv.2))) = ms := by
  induction ms with
  | nil => rfl
  | cons x xs ih => simp [decodeModel_encodeModel, ih]

/-- Re-serializing every agent entry of a store reproduces the store. -/
theorem map_decode_encode_agent (ags : List (String × AgentEntry)) :
    ags.map (fun kv => (kv.1, decodeAgent (encodeAgent kv.2))) = ags := by
  induction ags with
  | nil => rfl
  | cons x xs ih => simp [decodeAgent_encodeAgent, ih]

/-- C5: for every store state, `saveData()` followed by `loadData()` into a
fresh registry yields a store holding an equivalent set of records to the
one saved — the same model ids and agent ids, each mapped to a record with
the same field values.  Proved as equality of the whole registry state. -/
theorem save_load_roundtrip (r : Registry) (now : String) :
    loadData (saveData r now) = r := by
  rcases r with ⟨ms, ags, nws⟩
  simp [saveData, loadData, List.lookup, Function.comp_def,
    map_decode_encode_model, map_decode_encode_agent]

/-- C8 counterexample: the snapshot of even an empty registry has four
top-level keys — `networks` is present alongside `models`, `agents` and
`lastUpdated` — so the claimed three-key layout is not the written one. -/
theorem saveData_topKeys_counterexample :
    topKeys (saveData emptyRegistry "t") = ["models", "agents", "networks", "lastUpdated"]
    ∧ "networks" ∈ topKeys (saveData emptyRegistry "t")
    ∧ topKeys (saveData emptyRegistry "t") ≠ ["models", "agents", "lastUpdated"] := by
  refine ⟨rfl, by simp [saveData, emptyRegistry, topKeys], by simp [saveData, emptyRegistry, topKeys]⟩

/-- C8 amended: for every store state, the snapshot written by `saveData`
is a single JSON document whose top-level keys are exactly `models`
(mapping id to the serialized model record), `agents` (mapping id to the
serialized agent record), `networks`, and `lastUpdated` (the clock
reading). -/
theorem saveData_layout (r : Registry) (now : String) :
    topKeys (saveData r now) = ["models", "agents", "networks", "lastUpdated"]
    ∧ jLookup "models" (saveData r now)
        = some (.obj (r.models.map fun kv => (kv.1, encodeModel kv.2)))
    ∧ jLookup "agents" (saveData r now)
        = some (.obj (r.agents.map fun kv => (kv.1, encodeAgent kv.2)))
    ∧ jLookup "lastUpdated" (saveData r now) = some (.str now) := by
  refine ⟨rfl, ?_, ?_, ?_⟩ <;> simp [saveData, jLookup, List.lookup]

/-- C9: the record stored by `registerModel` has status `active` for every
registration input — the input `status` field is ignored, so a
registration can never create a record in any other status. -/
theorem registerModel_status_active (d : ModelData) (freshId now : String) :
    (registerModel d freshId now).status = "active" := rfl

/-- C10: the reliability stored by `registerModel` is the supplied value
when it is nonzero, and `1.0` when the field is absent; in particular a
supplied reliability of `0` is replaced by `1.0`. -/
theorem registerModel_reliability (d : ModelData) (freshId now : String) :
    (∀ q : ℚ, d.reliability = some q → q ≠ 0 →
        (registerModel d freshId now).reliability = q)
    ∧ (d.reliability = none → (registerModel d freshId now).reliability = 1)
    ∧ (d.reliability = some 0 → (registerModel d freshId now).reliability = 1) := by
  refine ⟨?_, ?_, ?_⟩
  · intro q hq hnz
    simp [registerModel, orDefaultQ, hq, hnz]
  · intro hq
    simp [registerModel, orDefaultQ, hq]
  · intro hq
    simp [registerModel, orDefaultQ, hq]

/-- C10 witness: registering with an explicit reliability of `0` stores a
record whose reliability is `1`, and a nonzero supplied value is kept. -/
theorem registerModel_reliability_witness :
    (registerModel { reliability := some 0 } "i" "t").reliability = 1
    ∧ (registerModel { reliability := some 2 } "i" "t").reliability = 2 := by
  refine ⟨(registerModel_reliability { reliability := some 0 } "i" "t").2.2 rfl, ?_⟩
  exact (registerModel_reliability { reliability := some 2 } "i" "t").1 2 rfl (by norm_num)

/-- C3 amended: a record with unset latency passes the `maxLatency`
criterion for every nonnegative supplied bound (a zero bound is falsy and
imposes no constraint; positive bounds pass because `null` coerces to
`0`).  Negative bounds are excluded: there `null > bound` is true and the
record is rejected. -/
theorem passMaxLatency_unset_nonneg (c : Criteria) (m : ModelEntry) (q : ℚ)
    (hc : c.maxLatency = some q) (hl : m.latencyMs = none) (hq : 0 ≤ q) :
    passMaxLatency c m = true := by
  have hgt : ¬ ((0 : ℚ) > q) := not_lt.mpr hq
  simp [passMaxLatency, truthyQ, hc, hl, numOrZero, hgt]

/-- C3 witness: a freshly registered model with no latency passes a
`maxLatency` bound of `3`. -/
theorem passMaxLatency_unset_nonneg_witness :
    ({ maxLatency := some 3 } : Criteria).maxLatency = some 3
    ∧ (registerModel {} "m" "t").latencyMs = none
    ∧ (0 : ℚ) ≤ 3
    ∧ passMaxLatency { maxLatency := some 3 } (registerModel {} "m" "t") = true :=
  ⟨rfl, rfl, by norm_num,
    passMaxLatency_unset_nonneg { maxLatency := some 3 } (registerModel {} "m" "t") 3
      rfl rfl (by norm_num)⟩

/-- C3 counterexample: with the numeric bound `-1`, a record with unset
latency fails the criterion — `null` coerces to `0` and `0 > -1` — so
unset latency does not pass for every numeric bound. -/
theorem passMaxLatency_negative_counterexample :
    (registerModel {} "m" "t").latencyMs = none
    ∧ passMaxLatency { maxLatency := some (-1) } (registerModel {} "m" "t") = false
    ∧ findModels [("m", registerModel {} "m" "t")] { maxLatency := some (-1) } = [] := by
  refine ⟨rfl, by decide, by decide⟩

/-- The comparator order is total. -/
theorem modelLe_total (a b : ModelEntry) : modelLe a b = true ∨ modelLe b a = true := by
  unfold modelLe
  rcases eq_or_ne a.reliability b.reliability with h | h
  · simp [h]
    all_goals exact le_total (latKey a) (latKey b)
  · simp [h, h.symm]

/-- The comparator order is transitive. -/
theorem modelLe_trans (a b c : ModelEntry) (h1 : modelLe a b = true)
    (h2 : modelLe b c = true) : modelLe a c = true := by
  unfold modelLe at h1 h2 ⊢
  split_ifs at h1 h2 ⊢ <;> simp_all <;> linarith

/-- What a nonpositive comparator value means, stated on the record fields. -/
theorem modelLe_imp (a b : ModelEntry) (h : modelLe a b = true) :
    b.reliability < a.reliability
    ∨ (a.reliability = b.reliability ∧ latKey a ≤ latKey b) := by
  unfold modelLe at h
  split_ifs at h with hab
  · exact Or.inr ⟨hab, by simpa using h⟩
  · exact Or.inl (by simpa using h)

/-- C2 amended: in the sequence returned by `findModels`, a record `a`
preceding a record `b` satisfies `a.reliability > b.reliability`, or equal
reliability with `latKey a ≤ latKey b`, where `latKey` is `latencyMs` when
set and nonzero and the sentinel `999999` otherwise — so unset latency
sorts after set latencies below `999999` but before set latencies above
it, and a zero latency is treated like unset.  The sort is stable: two
matched records tied on reliability and key keep store enumeration order. -/
theorem findModels_sorted_stable (s : Store) (c : Criteria) :
    (findModels s c).Pairwise
      (fun a b => b.reliability < a.reliability
        ∨ (a.reliability = b.reliability ∧ latKey a ≤ latKey b))
    ∧ ∀ a b : ModelEntry, a.reliability = b.reliability → latKey a = latKey b →
        [a, b].Sublist ((s.map Prod.snd).filter (matchesCode c)) →
        [a, b].Sublist (findModels s c) := by
  haveI : IsTotal ModelEntry (fun a b => modelLe a b = true) := ⟨modelLe_total⟩
  haveI : IsTrans ModelEntry (fun a b => modelLe a b = true) :=
    ⟨fun a b c => modelLe_trans a b c⟩
  constructor
  · have hs := List.sorted_insertionSort (fun a b => modelLe a b = true)
      ((s.map Prod.snd).filter (matchesCode c))
    exact List.Pairwise.imp (fun h => modelLe_imp _ _ h) hs
  · intro a b h1 h2 hsub
    apply List.sublist_insertionSort ?_ hsub
    have : modelLe a b = true := by
      unfold modelLe
      simp [h1, h2]
    simp [this]

/-- The two records of the C2 counterexample: equal reliability, one with
latency `1000000`, one with latency unset. -/
def cexM1 : ModelEntry := registerModel { latencyMs := some 1000000 } "m1" "t0"

/-- The unset-latency record of the C2 counterexample. -/
def cexM2 : ModelEntry := registerModel {} "m2" "t0"

/-- A store reachable by two registrations holding the two records. -/
def cexStoreLat : Store :=
  registerModelIn (registerModelIn [] { latencyMs := some 1000000 } "m1" "t0") {} "m2" "t0"

/-- C2 counterexample: at equal reliability, the record with unset latency
precedes the record with the set latency `1000000`, because the unset
sentinel is `999999` — so an unset-latency record does not sort after all
records with set latency. -/
theorem findModels_unsetLatency_counterexample :
    findModels cexStoreLat {} = [cexM2, cexM1]
    ∧ cexM2.latencyMs = none
    ∧ cexM1.latencyMs = some 1000000
    ∧ cexM1.reliability = cexM2.reliability := by
  refine ⟨by decide, rfl, rfl, rfl⟩

/-- C2 witness: on a store of two freshly registered records tied on both
sort keys, the output is pairwise ordered and keeps registration order. -/
theorem findModels_sorted_stable_witness :
    (findModels [("a1", registerModel {} "a1" "t"), ("a2", registerModel {} "a2" "t")] {}).Pairwise
      (fun a b => b.reliability < a.reliability
        ∨ (a.reliability = b.reliability ∧ latKey a ≤ latKey b))
    ∧ [registerModel {} "a1" "t", registerModel {} "a2" "t"].Sublist
        (findModels [("a1", registerModel {} "a1" "t"), ("a2", registerModel {} "a2" "t")] {}) :=
  ⟨(findModels_sorted_stable [("a1", registerModel {} "a1" "t"),
      ("a2", registerModel {} "a2" "t")] {}).1,
   (findModels_sorted_stable [("a1", registerModel {} "a1" "t"),
      ("a2", registerModel {} "a2" "t")] {}).2
     (registerModel {} "a1" "t") (registerModel {} "a2" "t") rfl rfl (by decide)⟩

/-- Under an effective `type` value, the code test agrees with the spec
predicate. -/
theorem passType_eq (c : Criteria) (m : ModelEntry)
    (h : c.type.all (fun s => !(s == "")) = true) :
    passType c m = (match c.type with | none => true | some s => m.type == some s) := by
  cases hc : c.type with
  | none => simp [passType, truthyS, hc]
  | some s =>
      rw [hc] at h
      simp only [Option.all_some, Bool.not_eq_eq_eq_not, Bool.not_true, beq_eq_false_iff_ne,
        ne_eq] at h
      simp [passType, truthyS, hc, h]
      rw [Bool.eq_iff_iff]
      simp [beq_iff_eq]

/-- Under an effective `provider` value, the code test agrees with the
spec predicate. -/
theorem passProvider_eq (c : Criteria) (m : ModelEntry)
    (h : c.provider.all (fun s => !(s == "")) = true) :
    passProvider c m
      = (match c.provider with | none => true | some s => m.provider == some s) := by
  cases hc : c.provider with
  | none => simp [passProvider, truthyS, hc]
  | some s =>
      rw [hc] at h
      simp only [Option.all_some, Bool.not_eq_eq_eq_not, Bool.not_true, beq_eq_false_iff_ne,
        ne_eq] at h
      simp [passProvider, truthyS, hc, h]
      rw [Bool.eq_iff_iff]
      simp [beq_iff_eq]

/-- Under an effective `capability` value, the code test agrees with the
spec predicate. -/
theorem passCapability_eq (c : Criteria) (m : ModelEntry)
    (h : c.capability.all (fun s => !(s == "")) = true) :
    passCapability c m
      = (match c.capability with | none => true | some s => m.capabilities.contains s) := by
  cases hc : c.capability with
  | none => simp [passCapability, truthyS, hc]
  | some s =>
      rw [hc] at h
      simp only [Option.all_some, Bool.not_eq_eq_eq_not, Bool.not_true, beq_eq_false_iff_ne,
        ne_eq] at h
      simp [passCapability, truthyS, hc, h]

/-- Under an effective `inputFormat` value, the code test agrees with the
spec predicate. -/
theorem passInputFormat_eq (c : Criteria) (m : ModelEntry)
    (h : c.inputFormat.all (fun s => !(s == "")) = true) :
    passInputFormat c m
      = (match c.inputFormat with | none => true | some s => m.inputFormats.contains s) := by
  cases hc : c.inputFormat with
  | none => simp [passInputFormat, truthyS, hc]
  | some s =>
      rw [hc] at h
      simp only [Option.all_some, Bool.not_eq_eq_eq_not, Bool.not_true, beq_eq_false_iff_ne,
        ne_eq] at h
      simp [passInputFormat, truthyS, hc, h]

/-- Under an effective `outputFormat` value, the code test agrees with the
spec predicate. -/
theorem passOutputFormat_eq (c : Criteria) (m : ModelEntry)
    (h : c.outputFormat.all (fun s => !(s == "")) = true) :
    passOutputFormat c m
      = (match c.outputFormat with | none => true | some s => m.outputFormats.contains s) := by
  cases hc : c.outputFormat with
  | none => simp [passOutputFormat, truthyS, hc]
  | some s =>
      rw [hc] at h
      simp only [Option.all_some, Bool.not_eq_eq_eq_not, Bool.not_true, beq_eq_false_iff_ne,
        ne_eq] at h
      simp [passOutputFormat, truthyS, hc, h]

/-- Under a positive `maxLatency` bound, the code test — where `null`
latency coerces to `0` — agrees with the spec predicate, where unset
latency always passes. -/
theorem passMaxLatency_eq (c : Criteria) (m : ModelEntry)
    (h : c.maxLatency.all (fun q => decide (0 < q)) = true) :
    passMaxLatency c m
      = (match c.maxLatency with
         | none => true
         | some q => match m.latencyMs with | none => true | some l => decide (l ≤ q)) := by
  cases hc : c.maxLatency with
  | none => simp [passMaxLatency, truthyQ, hc]
  | some q =>
      rw [hc] at h
      simp only [Option.all_some, decide_eq_true_eq] at h
      cases hl : m.latencyMs with
      | none =>
          have hgt : ¬ ((0 : ℚ) > q) := not_lt.mpr (le_of_lt h)
          simp [passMaxLatency, truthyQ, hc, hl, numOrZero, hgt]
      | some l =>
          have hq : q ≠ 0 := ne_of_gt h
          simp [passMaxLatency, truthyQ, hc, hl, numOrZero, hq]
          rw [Bool.eq_iff_iff]
          simp [not_le]

/-- Under a nonzero `minReliability` bound, the code test agrees with the
spec predicate. -/
theorem passMinReliability_eq (c : Criteria) (m : ModelEntry)
    (h : c.minReliability.all (fun q => !(q == 0)) = true) :
    passMinReliability c m
      = (match c.minReliability with
         | none => true
         | some q => decide (q ≤ m.reliability)) := by
  cases hc : c.minReliability with
  | none => simp [passMinReliability, truthyQ, hc]
  | some q =>
      rw [hc] at h
      simp only [Option.all_some, Bool.not_eq_eq_eq_not, Bool.not_true, beq_eq_false_iff_ne,
        ne_eq] at h
      simp [passMinReliability, truthyQ, hc, h]
      rw [Bool.eq_iff_iff]
      simp [not_le]

/-- The `tags` test agrees with the spec predicate unconditionally: a
supplied array, even empty, is truthy. -/
theorem passTags_eq (c : Criteria) (m : ModelEntry) :
    passTags c m
      = (match c.tags with
         | none => true
         | some ts => ts.all (fun t => m.tags.contains t)) := by
  cases hc : c.tags with
  | none => simp [passTags, hc]
  | some ts => simp [passTags, hc]

/-- Under effective criteria the full code filter coincides with the spec
filtering predicate. -/
theorem matchesCode_eq_specMatches (c : Criteria) (m : ModelEntry)
    (h : effectiveCriteria c = true) : matchesCode c m = specMatches c m := by
  simp only [effectiveCriteria, Bool.and_eq_true] at h
  obtain ⟨⟨⟨⟨⟨⟨h1, h2⟩, h3⟩, h4⟩, h5⟩, h6⟩, h7⟩ := h
  unfold matchesCode specMatches
  rw [passType_eq c m h1, passProvider_eq c m h2, passCapability_eq c m h3,
    passInputFormat_eq c m h4, passOutputFormat_eq c m h5, passMaxLatency_eq c m h6,
    passMinReliability_eq c m h7, passTags_eq c m]

/-- C1 amended: for every store state and every criteria mapping whose
supplied values are effective (non-empty strings, a positive `maxLatency`,
a nonzero `minReliability`), `findModels` returns exactly — as a multiset,
ordering being the separate sorting property — the records of the store
satisfying every supplied criterion; unmatched criteria yield the empty
sequence.  Falsy supplied values (empty string, zero) impose no
constraint, and a negative `maxLatency` additionally rejects records with
unset latency. -/
theorem findModels_matches_spec (s : Store) (c : Criteria)
    (h : effectiveCriteria c = true) :
    (findModels s c).Perm ((s.map Prod.snd).filter (fun m => specMatches c m)) := by
  have hf : (s.map Prod.snd).filter (matchesCode c)
      = (s.map Prod.snd).filter (fun m => specMatches c m) :=
    List.filter_congr (fun m _ => matchesCode_eq_specMatches c m h)
  unfold findModels
  rw [← hf]
  exact List.perm_insertionSort (fun a b => modelLe a b = true)
    ((s.map Prod.snd).filter (matchesCode c))

/-- C1 witness: on a store with one `llm` model and one `vision` model,
the `type` filter returns exactly the records the spec predicate selects. -/
theorem findModels_matches_spec_witness :
    effectiveCriteria { type := some "llm" } = true
    ∧ (findModels [("w1", registerModel { type := some "llm" } "w1" "t"),
          ("w2", registerModel { type := some "vision" } "w2" "t")]
        { type := some "llm" }).Perm
        (([("w1", registerModel { type := some "llm" } "w1" "t"),
           ("w2", registerModel { type := some "vision" } "w2" "t")].map Prod.snd).filter
          (fun m => specMatches { type := some "llm" } m)) :=
  ⟨by decide,
   findModels_matches_spec [("w1", registerModel { type := some "llm" } "w1" "t"),
      ("w2", registerModel { type := some "vision" } "w2" "t")]
     { type := some "llm" } (by decide)⟩

/-- C1 counterexample: the criteria mapping supplying `maxLatency := 0` is
ignored by the code — `0` is falsy — so a record with latency `5`, which
violates the supplied bound, is still returned. -/
theorem findModels_falsy_counterexample :
    findModels [("z1", registerModel { latencyMs := some 5 } "z1" "t")]
        { maxLatency := some 0 }
      = [registerModel { latencyMs := some 5 } "z1" "t"]
    ∧ specMatches { maxLatency := some 0 }
        (registerModel { latencyMs := some 5 } "z1" "t") = false := by
  refine ⟨by decide, by decide⟩

/-- String collection distributes over object entry concatenation. -/
theorem stringsOfKVs_append (x y : List (String × Json)) :
    stringsOfKVs (x ++ y) = stringsOfKVs x ++ stringsOfKVs y := by
  induction x with
  | nil => rfl
  | cons kv kvs ih => simp [stringsOfKVs, ih]

/-- The serialized schema contributes only schema keys and the three
format or auth strings of the record. -/
theorem stringsOf_encodeSchema (m : ModelEntry) (nI : String) :
    stringsOf (encodeSchema m.communicationSchema) ⊆ allowedStrings m nI := by
  cases hrf : m.communicationSchema.requestFormat <;>
    cases hsf : m.communicationSchema.responseFormat <;>
      cases hss : m.communicationSchema.streamingSupported <;>
        cases ham : m.communicationSchema.authMethod <;>
          simp [encodeSchema, encodeSchemaKVs, optEntry, stringsOf, stringsOfKVs,
            allowedStrings, descriptorLiterals, hrf, hsf, hss, ham, List.cons_subset]

/-- The openai-compatible request template leaks only literals, the
endpoint and the name. -/
theorem stringsOf_reqOpenai (m : ModelEntry) (nI : String) :
    stringsOf (exampleReqOpenai m) ⊆ allowedStrings m nI := by
  cases hn : m.name <;>
    simp [exampleReqOpenai, optEntry, stringsOf, stringsOfKVs, stringsOfList,
      allowedStrings, descriptorLiterals, hn, List.cons_subset]

/-- The anthropic request template leaks only literals, the endpoint and
the name. -/
theorem stringsOf_reqAnthropic (m : ModelEntry) (nI : String) :
    stringsOf (exampleReqAnthropic m) ⊆ allowedStrings m nI := by
  cases hn : m.name <;>
    simp [exampleReqAnthropic, optEntry, stringsOf, stringsOfKVs, stringsOfList,
      allowedStrings, descriptorLiterals, hn, List.cons_subset]

/-- The ollama request template leaks only literals, the endpoint and the
name. -/
theorem stringsOf_reqOllama (m : ModelEntry) (nI : String) :
    stringsOf (exampleReqOllama m) ⊆ allowedStrings m nI := by
  cases hn : m.name <;>
    simp [exampleReqOllama, optEntry, stringsOf, stringsOfKVs, stringsOfList,
      allowedStrings, descriptorLiterals, hn, List.cons_subset]

/-- Whatever the request format, the example request stays inside the
allowed strings. -/
theorem stringsOf_generateExampleRequest (m : ModelEntry) (nI : String) :
    stringsOf (generateExampleRequest m) ⊆ allowedStrings m nI := by
  unfold generateExampleRequest
  split
  · exact stringsOf_reqAnthropic m nI
  · split
    · exact stringsOf_reqOllama m nI
    · exact stringsOf_reqOpenai m nI

/-- The openai-compatible response template leaks only literals and the
name. -/
theorem stringsOf_respOpenai (m : ModelEntry) (nE : ℚ) (nI : String) :
    stringsOf (exampleRespOpenai m nE) ⊆ allowedStrings m nI := by
  cases hn : m.name <;>
    simp [exampleRespOpenai, optEntry, stringsOf, stringsOfKVs, stringsOfList,
      allowedStrings, descriptorLiterals, hn, List.cons_subset]

/-- The anthropic response template leaks only literals and the name. -/
theorem stringsOf_respAnthropic (m : ModelEntry) (nI : String) :
    stringsOf (exampleRespAnthropic m) ⊆ allowedStrings m nI := by
  cases hn : m.name <;>
    simp [exampleRespAnthropic, optEntry, stringsOf, stringsOfKVs, stringsOfList,
      allowedStrings, descriptorLiterals, hn, List.cons_subset]

/-- The ollama response template leaks only literals, the clock and the
name. -/
theorem stringsOf_respOllama (m : ModelEntry) (nI : String) :
    stringsOf (exampleRespOllama m nI) ⊆ allowedStrings m nI := by
  cases hn : m.name <;>
    simp [exampleRespOllama, optEntry, stringsOf, stringsOfKVs, stringsOfList,
      allowedStrings, descriptorLiterals, hn, List.cons_subset]

/-- Whatever the response format, the example response stays inside the
allowed strings. -/
theorem stringsOf_generateExampleResponse (m : ModelEntry) (nE : ℚ) (nI : String) :
    stringsOf (generateExampleResponse m nE nI) ⊆ allowedStrings m nI := by
  unfold generateExampleResponse
  split
  · exact stringsOf_respAnthropic m nI
  · split
    · exact stringsOf_respOllama m nI
    · exact stringsOf_respOpenai m nE nI

/-- C4 amended: for every model id present in the store, the descriptor
returned by `getModelCommunication` has no `apiKeyPresent` field; instead
its `apiKey` field is the mask string `***hidden***` exactly when the
record has a non-empty key and `null` otherwise, and every string in the
descriptor payload is a fixed literal, the clock reading, or derived from
a field of the record other than `apiKey` — so the raw key can appear
only by coinciding with one of those. -/
theorem getModelCommunication_masks (s : Store) (modelId : String) (m : ModelEntry)
    (nE : ℚ) (nI : String) (h : s.lookup modelId = some m) :
    ∃ d, getModelCommunication s modelId nE nI = some d
      ∧ jLookup "apiKeyPresent" d = none
      ∧ jLookup "apiKey" d
          = some (if truthyS m.apiKey then Json.str "***hidden***" else Json.null)
      ∧ ∀ x ∈ stringsOf d, x ∈ allowedStrings m nI := by
  simp only [getModelCommunication, h, Option.map_some']
  refine ⟨_, rfl, ?_, ?_, ?_⟩
  · simp [jLookup, List.lookup, List.append_assoc, lookup_optEntry_ne]
  · simp [jLookup, List.lookup, List.append_assoc, lookup_optEntry_ne, lookup_optEntry_self]
  · intro x hx
    simp only [stringsOf, List.append_assoc, stringsOfKVs_append] at hx
    simp only [List.mem_append] at hx
    rcases hx with hx | hx | hx | hx | hx | hx
    · simp [stringsOfKVs, stringsOf, allowedStrings, descriptorLiterals] at hx ⊢
      rcases hx with rfl | rfl <;> simp
    · rcases hn : m.name with _ | a <;> rw [hn] at hx <;>
        simp [optEntry, stringsOfKVs, stringsOf] at hx
      · rcases hx with rfl | rfl <;> simp [allowedStrings, descriptorLiterals, hn]
    · rcases he : m.endpoint with _ | a <;> rw [he] at hx <;>
        simp [optEntry, stringsOfKVs, stringsOf] at hx
      · rcases hx with rfl | rfl <;> simp [allowedStrings, descriptorLiterals, he]
    · simp [stringsOfKVs, stringsOf] at hx
      rcases hx with rfl | rfl | rfl | hx
      · simp [allowedStrings, descriptorLiterals]
      · simp [allowedStrings, descriptorLiterals]
      · simp [allowedStrings, descriptorLiterals]
      · exact stringsOf_encodeSchema m nI hx
    · rcases ha : m.communicationSchema.authMethod with _ | a <;> rw [ha] at hx <;>
        simp [optEntry, stringsOfKVs, stringsOf] at hx
      · rcases hx with rfl | rfl <;> simp [allowedStrings, descriptorLiterals, ha]
    · simp [stringsOfKVs, stringsOf] at hx
      rcases hx with rfl | hx | rfl | hx | rfl | hx
      · simp [allowedStrings, descriptorLiterals]
      · rcases htk : truthyS m.apiKey <;> rw [htk] at hx <;>
          simp [stringsOf] at hx
        subst hx
        simp [allowedStrings, descriptorLiterals]
      · simp [allowedStrings, descriptorLiterals]
      · exact stringsOf_generateExampleRequest m nI hx
      · simp [allowedStrings, descriptorLiterals]
      · exact stringsOf_generateExampleResponse m nE nI hx

/-- The record of the C4 scenario: its display name coincides with its
secret key. -/
def secretM : ModelEntry :=
  registerModel { name := some "secret", apiKey := some "secret" } "m1" "t0"

/-- A one-record store holding the C4 scenario record. -/
def secretS : Store := [("m1", secretM)]

/-- C4 counterexample: the descriptor for a key-bearing record has no
`apiKeyPresent` field at all — the masking field is named `apiKey` — and
the raw key string does appear in the payload when another field (here
the name) coincides with it. -/
theorem getModelCommunication_counterexample :
    (getModelCommunication secretS "m1" 0 "t1").map (fun d => jLookup "apiKeyPresent" d)
      = some none
    ∧ (getModelCommunication secretS "m1" 0 "t1").map (fun d => (stringsOf d).contains "secret")
      = some true
    ∧ secretM.apiKey = some "secret" := by
  refine ⟨rfl, rfl, rfl⟩

/-- C4 witness: the amended masking statement applied to the concrete
one-record store. -/
theorem getModelCommunication_masks_witness :
    ∃ d, getModelCommunication secretS "m1" 0 "tZ" = some d
      ∧ jLookup "apiKeyPresent" d = none
      ∧ jLookup "apiKey" d
          = some (if truthyS secretM.apiKey then Json.str "***hidden***" else Json.null)
      ∧ ∀ x ∈ stringsOf d, x ∈ allowedStrings secretM "tZ" :=
  getModelCommunication_masks secretS "m1" secretM 0 "tZ" rfl

/-- A successful lookup exhibits a store entry. -/
theorem lookup_mem {α : Type} (s : List (String × α)) (k : String) (v : α)
    (h : s.lookup k = some v) : (k, v) ∈ s := by
  induction s with
  | nil => simp [List.lookup] at h
  | cons x xs ih =>
      rcases x with ⟨k', v'⟩
      by_cases hk : k = k'
      · subst hk
        simp [List.lookup] at h
        simp [h]
      · have hb : (k == k') = false := by simp [hk]
        simp [List.lookup, hb] at h
        exact List.mem_cons_of_mem _ (ih h)

/-- Deleting a key from a store with distinct keys removes it from lookup. -/
theorem lookup_eraseP_self {α : Type} (s : List (String × α)) (k : String)
    (hnd : (s.map Prod.fst).Nodup) :
    (s.eraseP (fun kv => kv.1 == k)).lookup k = none := by
  induction s with
  | nil => rfl
  | cons x xs ih =>
      rcases x with ⟨k', v'⟩
      simp only [List.map_cons, List.nodup_cons] at hnd
      by_cases hk : k' = k
      · subst hk
        simp only [List.eraseP_cons, beq_self_eq_true, List.lookup_eq_none_iff]
        intro p hp
        have : p.1 ∈ xs.map Prod.fst := List.mem_map_of_mem Prod.fst hp
        have hne : p.1 ≠ k' := fun he => hnd.1 (he ▸ this)
        simp [bne, hne.symm]
      · have hb : ((k', v').1 == k) = false := by simp [hk]
        simp only [List.eraseP_cons, hb, Bool.false_eq_true, if_false]
        have hkb : (k == k') = false := by
          simp only [beq_eq_false_iff_ne, ne_eq]
          exact fun he => hk he.symm
        simp only [List.lookup, hkb]
        exact ih hnd.2

/-- Membership in a `findModels` result comes from the store values. -/
theorem mem_findModels (s : Store) (c : Criteria) (m : ModelEntry)
    (h : m ∈ findModels s c) : m ∈ s.map Prod.snd := by
  unfold findModels at h
  have := (List.mem_insertionSort (fun a b => modelLe a b = true)).mp h
  exact (List.mem_filter.mp this).1

/-- The running total of the stats fold counts one per record. -/
theorem foldl_statsStep_totalModels (l : List ModelEntry) :
    ∀ acc : Stats, (l.foldl statsStep acc).totalModels = acc.totalModels + l.length := by
  induction l with
  | nil => intro acc; simp
  | cons x xs ih =>
      intro acc
      simp [List.foldl_cons, ih, statsStep]
      omega

/-- `getStats` counts exactly the store size as `totalModels`. -/
theorem getStats_totalModels (r : Registry) :
    (getStats r).totalModels = r.models.length := by
  unfold getStats
  simp [foldl_statsStep_totalModels]

/-- C6 amended and confirmed content: deleting a present id succeeds,
removes the id from lookup, drops the record from `findModels({})` and
decreases `totalModels` by exactly one; deleting an absent id reports
failure and leaves the store untouched.  Stated for stores with distinct
keys whose records carry their own key as id, the invariant every
reachable store satisfies. -/
theorem removeModel_spec (r : Registry) (modelId : String)
    (hnd : (r.models.map Prod.fst).Nodup)
    (hids : ∀ kv ∈ r.models, (Prod.snd kv).id = kv.1) :
    (∀ m, r.models.lookup modelId = some m →
      (removeModel r.models modelId).1 = true
      ∧ (removeModel r.models modelId).2.lookup modelId = none
      ∧ m ∉ findModels (removeModel r.models modelId).2 {}
      ∧ (getStats { r with models := (removeModel r.models modelId).2 }).totalModels + 1
          = (getStats r).totalModels)
    ∧ (r.models.lookup modelId = none →
        removeModel r.models modelId = (false, r.models)) := by
  constructor
  · intro m h
    have hmem : (modelId, m) ∈ r.models := lookup_mem r.models modelId m h
    have hid : m.id = modelId := hids (modelId, m) hmem
    unfold removeModel
    rw [h]
    refine ⟨rfl, lookup_eraseP_self r.models modelId hnd, ?_, ?_⟩
    · intro hmem2
      have hval := mem_findModels _ {} m hmem2
      rcases List.mem_map.mp hval with ⟨kv, hkv, hkv2⟩
      have hkv3 : kv ∈ r.models := (List.eraseP_sublist r.models).mem hkv
      have : kv.2.id = kv.1 := hids kv hkv3
      have hkeq : kv.1 = modelId := by rw [← this, hkv2, hid]
      have hnone := lookup_eraseP_self r.models modelId hnd
      rw [List.lookup_eq_none_iff] at hnone
      have := hnone kv hkv
      rw [hkeq] at this
      simp at this
    · have hlen : (r.models.eraseP (fun kv => kv.1 == modelId)).length
          = r.models.length - 1 :=
        List.length_eraseP_of_mem hmem (by simp)
      have hpos : 0 < r.models.length := List.length_pos_of_mem hmem
      simp [getStats_totalModels, hlen]
      omega
  · intro h
    unfold removeModel
    rw [h]

/-- The record and registry of the C6 witness scenario. -/
def c6Entry : ModelEntry := registerModel { id := some "m1" } "f" "t"

/-- A one-record registry whose record carries its key as id. -/
def c6Reg : Registry := { models := [("m1", c6Entry)], agents := [], networks := [] }

/-- C6 witness: deleting the only record of a one-record store, then
deleting an absent id, both behave as stated. -/
theorem removeModel_spec_witness :
    ((removeModel c6Reg.models "m1").1 = true
      ∧ (removeModel c6Reg.models "m1").2.lookup "m1" = none
      ∧ c6Entry ∉ findModels (removeModel c6Reg.models "m1").2 {}
      ∧ (getStats { c6Reg with models := (removeModel c6Reg.models "m1").2 }).totalModels + 1
          = (getStats c6Reg).totalModels)
    ∧ removeModel c6Reg.models "nope" = (false, c6Reg.models) :=
  ⟨(removeModel_spec c6Reg "m1" (by decide) (by decide)).1 c6Entry rfl,
   (removeModel_spec c6Reg "nope" (by decide) (by decide)).2 rfl⟩

/-- Updating the entry at a key in place is visible to lookup. -/
theorem lookup_map_update (s : Store) (modelId : String)
    (f : ModelEntry → ModelEntry) (m : ModelEntry) (h : s.lookup modelId = some m) :
    (s.map fun kv => if kv.1 = modelId then (kv.1, f kv.2) else kv).lookup modelId
      = some (f m) := by
  induction s with
  | nil => simp [List.lookup] at h
  | cons x xs ih =>
      rcases x with ⟨k', v'⟩
      by_cases hk : k' = modelId
      · subst hk
        rw [List.map_cons, if_pos rfl]
        simp only [List.lookup, beq_self_eq_true] at h ⊢
        rw [Option.some.inj h]
      · have hb : (modelId == k') = false := by
          simp only [beq_eq_false_iff_ne, ne_eq]
          exact fun he => hk he.symm
        rw [List.map_cons, if_neg hk]
        simp only [List.lookup, hb] at h ⊢
        exact ih h

/-- `Map.set` is visible to lookup regardless of prior contents. -/
theorem lookup_mapSet_self {α : Type} (s : List (String × α)) (k : String) (v : α) :
    (mapSet s k v).lookup k = some v := by
  induction s with
  | nil => simp [mapSet, List.lookup]
  | cons x xs ih =>
      rcases x with ⟨k', v'⟩
      by_cases hk : k' = k
      · subst hk
        simp [mapSet, List.lookup]
      · have hb : (k == k') = false := by
          simp only [beq_eq_false_iff_ne, ne_eq]
          exact fun he => hk he.symm
        simp only [mapSet, hk, if_false]
        simp only [List.lookup, hb]
        exact ih

/-- C7 counterexample: the heartbeat `updateModelStatus` refreshes
`lastSeen` but leaves `lastUpdated` at its old value, so not every
mutating call sets both timestamps. -/
theorem updateModelStatus_counterexample :
    ((updateModelStatus [("m1", registerModel {} "m1" "t0")] "m1" "active" "t1").lookup
        "m1").map (fun m => (m.lastSeen, m.lastUpdated))
      = some ("t1", "t0")
    ∧ "t0" ≠ "t1" := by
  refine ⟨rfl, by decide⟩

/-- C7 amended: `registerModel` stamps both `lastSeen` and `lastUpdated`;
the heartbeat `updateModelStatus` stamps `lastSeen` only, preserving
`lastUpdated`; the field update route stamps `lastUpdated` only,
preserving `lastSeen` whenever the patch body does not itself carry a
`lastSeen` value. -/
theorem mutators_timestamps :
    (∀ (d : ModelData) (freshId now : String),
      (registerModel d freshId now).lastSeen = now
      ∧ (registerModel d freshId now).lastUpdated = now)
    ∧ (∀ (s : Store) (modelId st now : String) (m : ModelEntry),
        s.lookup modelId = some m →
        (updateModelStatus s modelId st now).lookup modelId
          = some { m with lastSeen := now, status := st })
    ∧ (∀ (s : Store) (modelId : String) (p : ModelPatch) (now : String) (m : ModelEntry),
        p.lastSeen = none → s.lookup modelId = some m →
        updateModel s modelId p now = some (mapSet s modelId (applyPatch m p now))
        ∧ (mapSet s modelId (applyPatch m p now)).lookup modelId
            = some (applyPatch m p now)
        ∧ (applyPatch m p now).lastUpdated = now
        ∧ (applyPatch m p now).lastSeen = m.lastSeen) := by
  refine ⟨fun d freshId now => ⟨rfl, rfl⟩, ?_, ?_⟩
  · intro s modelId st now m h
    unfold updateModelStatus
    rw [h]
    exact lookup_map_update s modelId
      (fun v => { v with lastSeen := now, status := st }) m h
  · intro s modelId p now m hp h
    refine ⟨?_, lookup_mapSet_self s modelId _, rfl, ?_⟩
    · unfold updateModel
      rw [h]
    · simp [applyPatch, hp]

/-- C7 witness: the three mutators applied to a concrete one-record store. -/
theorem mutators_timestamps_witness :
    ((registerModel {} "m1" "t0").lastSeen = "t0"
      ∧ (registerModel {} "m1" "t0").lastUpdated = "t0")
    ∧ (updateModelStatus [("m1", registerModel {} "m1" "t0")] "m1" "idle" "t1").lookup "m1"
        = some { registerModel {} "m1" "t0" with lastSeen := "t1", status := "idle" }
    ∧ (applyPatch (registerModel {} "m1" "t0") { provider := some (some "p") } "t2").lastUpdated
        = "t2"
    ∧ (applyPatch (registerModel {} "m1" "t0") { provider := some (some "p") } "t2").lastSeen
        = (registerModel {} "m1" "t0").lastSeen :=
  ⟨mutators_timestamps.1 {} "m1" "t0",
   mutators_timestamps.2.1 [("m1", registerModel {} "m1" "t0")] "m1" "idle" "t1"
     (registerModel {} "m1" "t0") rfl,
   (mutators_timestamps.2.2 [("m1", registerModel {} "m1" "t0")] "m1"
     { provider := some (some "p") } "t2" (registerModel {} "m1" "t0") rfl rfl).2.2.1,
   (mutators_timestamps.2.2 [("m1", registerModel {} "m1" "t0")] "m1"
     { provider := some (some "p") } "t2" (registerModel {} "m1" "t0") rfl rfl).2.2.2⟩
